import Mathlib

/-
Verification of the rust-easyjack client library (src/client.rs,
src/callbackhandler.rs) against its natural-language specification.

The JACK server is external: every foreign call made by the library is
modelled by an oracle argument (the integer result the server would
return, the handle it would hand back, the name it would report for a
handle).  The library functions are shallowly embedded as pure Lean
functions of the client state and of those oracle answers, returning the
new state together with the observable effects the claims speak about
(number of server name queries, which per-kind callback slots got
installed at the server, what happened to the heap box that holds a
handler).  A Rust panic (`unwrap` on an unrecognized status bitmask,
`unimplemented!()`) is modelled by an `Option`/`none`-style outcome:
the function does not return a value on that path.
-/

namespace Easyjack

/-! ### Status and Options bit flags

Modelled from the spec: the `status`/`options` modules (the repository's
`types.rs`) are not under src/; only their use sites are.  Per the spec,
`Status` is "a set of independent boolean flags (e.g., 'name not unique,'
'init failure,' 'server failure,' generic failure) packed into a
fixed-width integer; combinable via bitwise union", and the decode step
"rejects unrecognized bits as a fatal contract violation" (the bitflags
`from_bits(..).unwrap()` idiom used throughout client.rs).  The concrete
bit positions below are a modelling choice; no claim depends on them,
only on the flags being distinct single recognized bits. -/

/-- Modelled from the spec: the generic failure flag `status::FAILURE`. -/
def FAILURE : Nat := 0x01

/-- Modelled from the spec: the `status::NAME_NOT_UNIQUE` flag. -/
def NAME_NOT_UNIQUE : Nat := 0x04

/-- Modelled from the spec: the `status::INIT_FAILURE` flag. -/
def INIT_FAILURE : Nat := 0x100

/-- Modelled from the spec: the union of all recognized status bits; a
server-returned bitmask with any bit outside this mask fails to decode. -/
def recognizedMask : Nat := 0x1FFF

/-- Modelled from the spec: a decoded status bitmask (the bitflags
`Status` struct of `types.rs`). -/
structure Status where
  bits : Nat
deriving DecidableEq

/-- Modelled from the spec: bitflags `from_bits`, which returns `None`
when the integer contains a bit not corresponding to any declared flag
(callers `unwrap`, i.e. panic, on that path). -/
def Status.from_bits (b : Nat) : Option Status :=
  if b &&& recognizedMask = b then some ⟨b⟩ else none

/-- Modelled from the spec: bitflags `contains`, true when every bit of
the flag is set in the status. -/
def Status.contains (s : Status) (flag : Nat) : Bool :=
  s.bits &&& flag == flag

/-- Modelled from the spec: the `options::USE_EXACT_NAME` open-time flag
("require exact name"). -/
def USE_EXACT_NAME : Nat := 0x02

/-! ### Client state -/

/-- The `Client` struct of client.rs: a raw server connection handle
(`c_client`, a pointer; `0` models null) plus the two optional owned
handler boxes.  A heap box is identified by its raw pointer, a `Nat`. -/
structure Client where
  c_client : Nat
  process_handler : Option Nat
  metadata_handler : Option Nat
deriving DecidableEq

/-! ### Client::open / open_helper -/

/-- Observable outcome of an open call: the returned value and how many
times `jack_get_client_name` was queried during the call. -/
structure OpenOutcome where
  result : Except Status (Client × String)
  nameQueries : Nat

/-- `Client::get_name`: queries the server for the current name of the
client's handle.  The oracle `serverNameOf` gives the server's answer
per handle. -/
def get_name (serverNameOf : Nat → String) (c : Client) : String :=
  serverNameOf c.c_client

/-- `Client::open_helper` of client.rs: decodes the status bitmask
(panicking — `none` — on unrecognized bits), fails with the decoded
status when the handle is null, and otherwise builds the client,
re-querying the server for the assigned name exactly when the status
contains `NAME_NOT_UNIQUE`. -/
def open_helper (serverNameOf : Nat → String) (cl : Nat) (statusBits : Nat)
    (name : String) : Option OpenOutcome :=
  match Status.from_bits statusBits with
  | none => none
  | some status =>
    if cl = 0 then
      some ⟨Except.error status, 0⟩
    else
      let c : Client := ⟨cl, none, none⟩
      if status.contains NAME_NOT_UNIQUE then
        some ⟨Except.ok (c, get_name serverNameOf c), 1⟩
      else
        some ⟨Except.ok (c, name), 0⟩

/-- `Client::open` of client.rs (named `clientOpen` because `open` is a
Lean keyword): passes the name and options to `jack_client_open` — whose
answer is the oracle pair `serverHandle`/`serverStatus` — and delegates
to `open_helper`.  The options only travel to the server; `open_helper`
never inspects them. -/
def clientOpen (serverNameOf : Nat → String) (serverHandle : Nat)
    (serverStatus : Nat) (name : String) (_opts : Nat) : Option OpenOutcome :=
  open_helper serverNameOf serverHandle serverStatus name

/-! ### connect_ports / disconnect_ports -/

/-- The `res as u32` cast client.rs performs on the C int returned by
`jack_disconnect` before handing it to `Status::from_bits`. -/
def c_int_to_u32 (res : Int) : Nat := (res % (2 : Int) ^ 32).toNat

/-- `Client::connect_ports` of client.rs: `jack_connect` returned `res`;
zero is success, any nonzero result is collapsed to the generic
`status::FAILURE` flag. -/
def connect_ports (res : Int) : Except Status Unit :=
  if res = 0 then Except.ok () else Except.error ⟨FAILURE⟩

/-- `Client::disconnect_ports` of client.rs: `jack_disconnect` returned
`res`; zero is success, a nonzero result is decoded via
`Status::from_bits(res as u32).unwrap()` — `none` models the panic on
unrecognized bits. -/
def disconnect_ports (res : Int) : Option (Except Status Unit) :=
  if res = 0 then some (Except.ok ())
  else
    match Status.from_bits (c_int_to_u32 res) with
    | none => none
    | some s => some (Except.error s)

/-! ### set_process_handler -/

/-- What happened to the heap box holding a handler during a
registration call.  `droppedLocally` (reclaim via `Box::from_raw`
followed by a drop) is the disposition the spec prescribes for a
refused registration, but no path of the embedded code produces it:
both setters return early on a nonzero server result without passing
the raw pointer back through `Box::from_raw`, so the refusal paths
leak, and the only reclaim sites are the success branches, which hand
the rebuilt box to the Client. -/
inductive BoxDisposition
  | droppedLocally
  | ownedByClient
  | leaked
deriving DecidableEq

/-- Observable outcome of `set_process_handler`. -/
structure HandlerOutcome where
  client : Client
  result : Except Status Unit
  box : BoxDisposition

/-- `Client::set_process_handler` of client.rs: the handler is boxed
(`boxPtr` is the raw pointer `Box::into_raw` yields), the server is
asked to install the trampoline (`serverRet` is the oracle result of
`jack_set_process_callback`).  On nonzero the function returns
`Err(status::FAILURE)` immediately, without ever passing the raw
pointer back through `Box::from_raw` — the heap box leaks; on zero the
box is rebuilt from the raw pointer, recorded in `process_handler`,
and `Ok(())` is returned. -/
def set_process_handler (c : Client) (boxPtr : Nat) (serverRet : Int) :
    HandlerOutcome :=
  if serverRet ≠ 0 then
    ⟨c, Except.error ⟨FAILURE⟩, BoxDisposition.leaked⟩
  else
    ⟨{ c with process_handler := some boxPtr }, Except.ok (),
      BoxDisposition.ownedByClient⟩

/-! ### set_metadata_handler -/

/-- The `MetadataHandlers` capability enumeration of callbackhandler.rs. -/
inductive MetadataHandlers
  | SampleRate
  | PortConnect
  | Shutdown
  | Freewheel
  | BufferSize
  | ClientRegistration
  | PortRegistration
  | PortRename
  | GraphOrder
  | Xrun
deriving DecidableEq

/-- The kinds for which the `match` in `set_metadata_handler` has an
arm calling a `jack_set_*_callback` server function; every other kind
falls into the `_ => unimplemented!()` arm. -/
def MetadataHandlers.implemented : MetadataHandlers → Bool
  | MetadataHandlers.SampleRate => true
  | MetadataHandlers.PortConnect => true
  | MetadataHandlers.Xrun => true
  | _ => false

/-- Result of the `for h in cbs` registration loop inside
`set_metadata_handler`: either the `unimplemented!()` arm panicked, or
the loop finished with a final `ret` value.  `installed` records the
kinds whose `jack_set_*_callback` server call returned zero, in order —
the slots now installed at the server. -/
inductive MetaLoopOutcome
  | panicked (installed : List MetadataHandlers)
  | finished (ret : Int) (installed : List MetadataHandlers)
deriving DecidableEq

/-- The registration loop of `set_metadata_handler` in client.rs:
kind-by-kind, in the order of `cbs`; a supported kind makes the
per-kind server call (oracle `server`) and breaks on a nonzero result;
an unsupported kind hits `unimplemented!()`.  `installed` is the
accumulator of already-installed slots, in reverse. -/
def metaRegisterLoop (server : MetadataHandlers → Int) :
    List MetadataHandlers → List MetadataHandlers → MetaLoopOutcome
  | installed, [] => MetaLoopOutcome.finished 0 installed.reverse
  | installed, h :: rest =>
    if h.implemented then
      let r := server h
      if r ≠ 0 then MetaLoopOutcome.finished r installed.reverse
      else metaRegisterLoop server (h :: installed) rest
    else MetaLoopOutcome.panicked installed.reverse

/-- Observable outcome of `set_metadata_handler`.  `returned = none`
models the `unimplemented!()` panic: the call never returns a value. -/
structure MetaOutcome where
  client : Client
  returned : Option (Except Status Unit)
  box : BoxDisposition
  installed : List MetadataHandlers

/-- `Client::set_metadata_handler` of client.rs: the handler is boxed
once (`boxPtr`), asked for its `callbacks_of_interest()` list (`cbs`),
and the same raw pointer is registered kind-by-kind via
`metaRegisterLoop`.  A nonzero final `ret` returns
`Err(status::FAILURE)` without passing the raw pointer back through
`Box::from_raw` — the box leaks; a zero final `ret` rebuilds the box,
records it in `metadata_handler`, and returns `Ok(())`; hitting
`unimplemented!()` panics, leaking the box and leaving the client
untouched. -/
def set_metadata_handler (c : Client) (boxPtr : Nat)
    (cbs : List MetadataHandlers) (server : MetadataHandlers → Int) :
    MetaOutcome :=
  match metaRegisterLoop server [] cbs with
  | MetaLoopOutcome.panicked installed =>
    ⟨c, none, BoxDisposition.leaked, installed⟩
  | MetaLoopOutcome.finished ret installed =>
    if ret ≠ 0 then
      ⟨c, some (Except.error ⟨FAILURE⟩), BoxDisposition.leaked,
        installed⟩
    else
      ⟨{ c with metadata_handler := some boxPtr }, some (Except.ok ()),
        BoxDisposition.ownedByClient, installed⟩

/-! ### The port-connect trampoline -/

/-- The `PortConnectStatus` value delivered to
`MetadataHandler::on_port_connect`. -/
inductive PortConnectStatus
  | PortsConnected
  | PortsDisconnected
deriving DecidableEq

/-- The `connect_callback` trampoline installed by
`set_metadata_handler` in client.rs: it recovers the handler from the
opaque context (here: the handler's `on_port_connect` method `f` and
its state `s`), maps the server's C int `connect` indicator to
`PortsDisconnected` when zero and `PortsConnected` otherwise, and
dispatches with both port identifiers unchanged. -/
def connect_callback {σ : Type}
    (f : σ → Nat → Nat → PortConnectStatus → σ) (s : σ)
    (a b : Nat) (connect : Int) : σ :=
  f s a b
    (if connect = 0 then PortConnectStatus.PortsDisconnected
     else PortConnectStatus.PortsConnected)

/-! ### Helper lemmas -/

/-- Unfolding `open_helper` when the status bitmask decodes. -/
theorem open_helper_recognized (serverNameOf : Nat → String)
    (cl statusBits : Nat) (name : String)
    (hrec : statusBits &&& recognizedMask = statusBits) :
    open_helper serverNameOf cl statusBits name =
      some (if cl = 0 then ⟨Except.error ⟨statusBits⟩, 0⟩
        else if (Status.mk statusBits).contains NAME_NOT_UNIQUE then
          ⟨Except.ok (⟨cl, none, none⟩, serverNameOf cl), 1⟩
        else ⟨Except.ok (⟨cl, none, none⟩, name), 0⟩) := by
  unfold open_helper Status.from_bits
  rw [if_pos hrec]
  by_cases h0 : cl = 0
  · simp [h0]
  · by_cases hnn : (Status.mk statusBits).contains NAME_NOT_UNIQUE = true
    · simp [h0, hnn, get_name]
    · simp [h0, hnn, get_name]

/-- The registration loop succeeds with every slot installed when every
kind is implemented and every per-kind server call returns zero. -/
theorem metaRegisterLoop_all_zero (server : MetadataHandlers → Int) :
    ∀ (cbs installed : List MetadataHandlers),
      (∀ k ∈ cbs, k.implemented = true) →
      (∀ k ∈ cbs, server k = 0) →
      metaRegisterLoop server installed cbs =
        MetaLoopOutcome.finished 0 (installed.reverse ++ cbs)
  | [], installed, _, _ => by simp [metaRegisterLoop]
  | h :: t, installed, himp, hz => by
    have hh : h.implemented = true := himp h (List.mem_cons_self h t)
    have hsz : server h = 0 := hz h (List.mem_cons_self h t)
    have ih := metaRegisterLoop_all_zero server t (h :: installed)
      (fun k hk => himp k (List.mem_cons_of_mem h hk))
      (fun k hk => hz k (List.mem_cons_of_mem h hk))
    simp [metaRegisterLoop, hh, hsz, ih]

/-- The registration loop stops at the first per-kind server call that
returns nonzero, with exactly the kinds before it installed, when every
kind is implemented. -/
theorem metaRegisterLoop_first_failure (server : MetadataHandlers → Int) :
    ∀ (cbs installed : List MetadataHandlers),
      (∀ k ∈ cbs, k.implemented = true) →
      (∃ k ∈ cbs, server k ≠ 0) →
      ∃ r, r ≠ 0 ∧
        metaRegisterLoop server installed cbs =
          MetaLoopOutcome.finished r
            (installed.reverse ++ cbs.takeWhile (fun k => server k == 0))
  | [], _, _, hex => by simp at hex
  | h :: t, installed, himp, hex => by
    have hh : h.implemented = true := himp h (List.mem_cons_self h t)
    by_cases hz : server h = 0
    · have hext : ∃ k ∈ t, server k ≠ 0 := by
        rcases hex with ⟨k, hk, hne⟩
        rcases List.mem_cons.mp hk with rfl | hkt
        · exact absurd hz hne
        · exact ⟨k, hkt, hne⟩
      obtain ⟨r, hr, heq⟩ := metaRegisterLoop_first_failure server t
        (h :: installed) (fun k hk => himp k (List.mem_cons_of_mem h hk)) hext
      refine ⟨r, hr, ?_⟩
      simp [metaRegisterLoop, hh, hz, heq, List.takeWhile_cons]
    · refine ⟨server h, hz, ?_⟩
      simp [metaRegisterLoop, hh, hz, List.takeWhile_cons]

/-- Reaching an unimplemented kind after a prefix of accepted
implemented kinds panics with exactly that prefix installed. -/
theorem metaRegisterLoop_unimplemented (server : MetadataHandlers → Int) :
    ∀ (pre : List MetadataHandlers)
      (installed rest : List MetadataHandlers) (k : MetadataHandlers),
      (∀ j ∈ pre, j.implemented = true ∧ server j = 0) →
      k.implemented = false →
      metaRegisterLoop server installed (pre ++ k :: rest) =
        MetaLoopOutcome.panicked (installed.reverse ++ pre)
  | [], installed, rest, k, _, hk => by simp [metaRegisterLoop, hk]
  | h :: pre, installed, rest, k, hpre, hk => by
    obtain ⟨hh, hz⟩ := hpre h (List.mem_cons_self h pre)
    have ih := metaRegisterLoop_unimplemented server pre (h :: installed)
      rest k (fun j hj => hpre j (List.mem_cons_of_mem h hj)) hk
    simp [metaRegisterLoop, hh, hz, ih]

/-! ### Claim theorems -/

/-- C1 (code bug): evaluating `set_process_handler` at a refused
registration — server result 1 on a fresh client with box pointer 5.
The call returns `Err(Status::FAILURE)` and records no process handler
(the client is unchanged), as the claim says, but the heap box is
leaked, not reclaimed and dropped: the code returns early without
`Box::from_raw`, the only reclaim site being the success branch.  On a
zero server result the Client does take ownership of the box and the
call returns `Ok(())`, as the claim says. -/
theorem set_process_handler_refused_leak :
    ((set_process_handler ⟨1, none, none⟩ 5 1).result =
        Except.error ⟨FAILURE⟩ ∧
      (set_process_handler ⟨1, none, none⟩ 5 1).client = ⟨1, none, none⟩ ∧
      (set_process_handler ⟨1, none, none⟩ 5 1).box =
        BoxDisposition.leaked ∧
      (set_process_handler ⟨1, none, none⟩ 5 1).box ≠
        BoxDisposition.droppedLocally) ∧
    ((set_process_handler ⟨1, none, none⟩ 5 0).result = Except.ok () ∧
      (set_process_handler ⟨1, none, none⟩ 5 0).box =
        BoxDisposition.ownedByClient ∧
      (set_process_handler ⟨1, none, none⟩ 5 0).client.process_handler =
        some 5) :=
  ⟨⟨rfl, rfl, rfl, by decide⟩, ⟨rfl, rfl, rfl⟩⟩

/-- C2 counterexample: with `callbacks_of_interest()` returning
`[SampleRate, Shutdown]` and a server accepting every registration, the
call does not return a failure result — it hits `unimplemented!()` and
panics (`returned = none`) — and by that point the earlier-listed
SampleRate capability has already been registered with the server
(`installed = [SampleRate]`), contradicting "returns a failure result
without registering any other requested capability in the same call,
even if that other capability was listed first". -/
theorem set_metadata_handler_unimplemented_cex :
    (set_metadata_handler ⟨1, none, none⟩ 7
        [MetadataHandlers.SampleRate, MetadataHandlers.Shutdown]
        (fun _ => 0)).returned = none ∧
    (set_metadata_handler ⟨1, none, none⟩ 7
        [MetadataHandlers.SampleRate, MetadataHandlers.Shutdown]
        (fun _ => 0)).installed = [MetadataHandlers.SampleRate] :=
  ⟨rfl, rfl⟩

/-- C2 (amended): for every `set_metadata_handler` call whose
`callbacks_of_interest()` list contains an event kind other than
SampleRate, PortConnect, or Xrun, once execution reaches the first such
kind — i.e. when every implemented kind listed before it was accepted by
the server — the call fails loudly with the unconditional
`unimplemented!()` panic: it never returns a result, records no handler
in the Client, and leaks the box; the implemented kinds listed before it
have, however, already been registered with the server. -/
theorem set_metadata_handler_unimplemented_spec (c : Client) (boxPtr : Nat)
    (pre rest : List MetadataHandlers) (k : MetadataHandlers)
    (server : MetadataHandlers → Int)
    (hk : k.implemented = false)
    (hpre : ∀ j ∈ pre, j.implemented = true ∧ server j = 0) :
    (set_metadata_handler c boxPtr (pre ++ k :: rest) server).returned =
      none ∧
    (set_metadata_handler c boxPtr (pre ++ k :: rest) server).client = c ∧
    (set_metadata_handler c boxPtr (pre ++ k :: rest) server).box =
      BoxDisposition.leaked ∧
    (set_metadata_handler c boxPtr (pre ++ k :: rest) server).installed =
      pre := by
  have h := metaRegisterLoop_unimplemented server pre [] rest k hpre hk
  simp only [List.reverse_nil, List.nil_append] at h
  simp [set_metadata_handler, h]

/-- Witness for C2 (amended) at
`callbacks_of_interest() = [PortConnect, Freewheel, Xrun]` with an
accepting server. -/
theorem set_metadata_handler_unimplemented_spec_witness :
    (set_metadata_handler ⟨1, none, none⟩ 9
        [MetadataHandlers.PortConnect, MetadataHandlers.Freewheel,
          MetadataHandlers.Xrun] (fun _ => 0)).returned = none ∧
    (set_metadata_handler ⟨1, none, none⟩ 9
        [MetadataHandlers.PortConnect, MetadataHandlers.Freewheel,
          MetadataHandlers.Xrun] (fun _ => 0)).client = ⟨1, none, none⟩ ∧
    (set_metadata_handler ⟨1, none, none⟩ 9
        [MetadataHandlers.PortConnect, MetadataHandlers.Freewheel,
          MetadataHandlers.Xrun] (fun _ => 0)).box =
      BoxDisposition.leaked ∧
    (set_metadata_handler ⟨1, none, none⟩ 9
        [MetadataHandlers.PortConnect, MetadataHandlers.Freewheel,
          MetadataHandlers.Xrun] (fun _ => 0)).installed =
      [MetadataHandlers.PortConnect] :=
  set_metadata_handler_unimplemented_spec ⟨1, none, none⟩ 9
    [MetadataHandlers.PortConnect] [MetadataHandlers.Xrun]
    MetadataHandlers.Freewheel (fun _ => 0) rfl (by decide)

/-- C3 (code bug): evaluating `set_metadata_handler` at
`callbacks_of_interest() = [SampleRate, Xrun]` with the server
accepting SampleRate (0) and refusing Xrun (2), on a fresh client with
box pointer 7.  The loop stops at the first nonzero per-kind result
with no later kind registered, the already-installed SampleRate slot is
left installed, `Err(Status::FAILURE)` is returned and no metadata
handler is recorded, all as the claim says — but the shared box is
leaked, not reclaimed: the code returns early without `Box::from_raw`,
the only reclaim site being the full-success branch, which (as the
claim also says, evaluated here with an accepting server) hands
ownership of the single shared box to the Client. -/
theorem set_metadata_handler_first_failure_leak :
    ((set_metadata_handler ⟨1, none, none⟩ 7
        [MetadataHandlers.SampleRate, MetadataHandlers.Xrun]
        (fun k => if k = MetadataHandlers.Xrun then 2 else 0)).returned =
        some (Except.error ⟨FAILURE⟩) ∧
      (set_metadata_handler ⟨1, none, none⟩ 7
        [MetadataHandlers.SampleRate, MetadataHandlers.Xrun]
        (fun k => if k = MetadataHandlers.Xrun then 2 else 0)).client =
        ⟨1, none, none⟩ ∧
      (set_metadata_handler ⟨1, none, none⟩ 7
        [MetadataHandlers.SampleRate, MetadataHandlers.Xrun]
        (fun k => if k = MetadataHandlers.Xrun then 2 else 0)).installed =
        [MetadataHandlers.SampleRate] ∧
      (set_metadata_handler ⟨1, none, none⟩ 7
        [MetadataHandlers.SampleRate, MetadataHandlers.Xrun]
        (fun k => if k = MetadataHandlers.Xrun then 2 else 0)).box =
        BoxDisposition.leaked ∧
      (set_metadata_handler ⟨1, none, none⟩ 7
        [MetadataHandlers.SampleRate, MetadataHandlers.Xrun]
        (fun k => if k = MetadataHandlers.Xrun then 2 else 0)).box ≠
        BoxDisposition.droppedLocally) ∧
    ((set_metadata_handler ⟨1, none, none⟩ 7
        [MetadataHandlers.SampleRate, MetadataHandlers.Xrun]
        (fun _ => 0)).returned = some (Except.ok ()) ∧
      (set_metadata_handler ⟨1, none, none⟩ 7
        [MetadataHandlers.SampleRate, MetadataHandlers.Xrun]
        (fun _ => 0)).client = ⟨1, none, some 7⟩ ∧
      (set_metadata_handler ⟨1, none, none⟩ 7
        [MetadataHandlers.SampleRate, MetadataHandlers.Xrun]
        (fun _ => 0)).box = BoxDisposition.ownedByClient ∧
      (set_metadata_handler ⟨1, none, none⟩ 7
        [MetadataHandlers.SampleRate, MetadataHandlers.Xrun]
        (fun _ => 0)).installed =
        [MetadataHandlers.SampleRate, MetadataHandlers.Xrun]) :=
  ⟨⟨rfl, rfl, rfl, rfl, by decide⟩, ⟨rfl, rfl, rfl, rfl⟩⟩

/-- C4: for every name and options input, given a decodable server
status bitmask, `open` returns Ok exactly when the server's open call
returned a non-null client handle, and whenever the decoded status does
not contain the NAME_NOT_UNIQUE flag the assigned name returned equals
the originally requested name. -/
theorem clientOpen_ok_iff (serverNameOf : Nat → String)
    (handle statusBits : Nat) (name : String) (opts : Nat)
    (hrec : statusBits &&& recognizedMask = statusBits) :
    ∃ out, clientOpen serverNameOf handle statusBits name opts = some out ∧
      ((∃ cn, out.result = Except.ok cn) ↔ handle ≠ 0) ∧
      ((Status.mk statusBits).contains NAME_NOT_UNIQUE = false →
        ∀ c n, out.result = Except.ok (c, n) → n = name) := by
  rw [clientOpen,
    open_helper_recognized serverNameOf handle statusBits name hrec]
  by_cases h0 : handle = 0
  · refine ⟨⟨Except.error ⟨statusBits⟩, 0⟩, by simp [h0], ?_, ?_⟩
    · simp [h0]
    · intro _ c n hcn
      simp at hcn
  · by_cases hnn : (Status.mk statusBits).contains NAME_NOT_UNIQUE = true
    · refine ⟨⟨Except.ok (⟨handle, none, none⟩, serverNameOf handle), 1⟩,
        by simp [h0, hnn], ?_, ?_⟩
      · simp [h0]
      · intro hfalse
        rw [hnn] at hfalse
        exact absurd hfalse (by simp)
    · refine ⟨⟨Except.ok (⟨handle, none, none⟩, name), 0⟩,
        by simp [h0, hnn], ?_, ?_⟩
      · simp [h0]
      · intro _ c n hcn
        simp only [Except.ok.injEq, Prod.mk.injEq] at hcn
        exact hcn.2.symm

/-- Witness for C4 at a non-null handle and a status without
NAME_NOT_UNIQUE. -/
theorem clientOpen_ok_iff_witness :
    ∃ out, clientOpen (fun _ => "srv") 5 1 "nm" 0 = some out ∧
      ((∃ cn, out.result = Except.ok cn) ↔ (5 : Nat) ≠ 0) ∧
      ((Status.mk 1).contains NAME_NOT_UNIQUE = false →
        ∀ c n, out.result = Except.ok (c, n) → n = "nm") :=
  clientOpen_ok_iff (fun _ => "srv") 5 1 "nm" 0 (by decide)

/-- C5: for every `open` call where the server returns a non-null
handle and a decodable status containing NAME_NOT_UNIQUE, and the
options do not request an exact name, the assigned name returned equals
the fresh server name query for that handle, and the call makes exactly
one such query (never zero, never more than one). -/
theorem clientOpen_name_not_unique (serverNameOf : Nat → String)
    (handle statusBits : Nat) (name : String) (opts : Nat)
    (hrec : statusBits &&& recognizedMask = statusBits)
    (hnn : (Status.mk statusBits).contains NAME_NOT_UNIQUE = true)
    (hhandle : handle ≠ 0)
    (_hexact : opts &&& USE_EXACT_NAME = 0) :
    clientOpen serverNameOf handle statusBits name opts =
      some ⟨Except.ok (⟨handle, none, none⟩, serverNameOf handle), 1⟩ := by
  rw [clientOpen,
    open_helper_recognized serverNameOf handle statusBits name hrec]
  simp [hhandle, hnn]

/-- Witness for C5: requested name "srv", server assigned "srv.1". -/
theorem clientOpen_name_not_unique_witness :
    clientOpen (fun _ => "srv.1") 5 4 "srv" 1 =
      some ⟨Except.ok (⟨5, none, none⟩, "srv.1"), 1⟩ :=
  clientOpen_name_not_unique (fun _ => "srv.1") 5 4 "srv" 1
    (by decide) (by decide) (by decide) (by decide)

/-- C6: for every `open` call where the server returns a null handle
and a decodable status containing NAME_NOT_UNIQUE, `open` returns Err
carrying exactly that status, and no server name query occurs. -/
theorem clientOpen_null_name_not_unique (serverNameOf : Nat → String)
    (statusBits : Nat) (name : String) (opts : Nat)
    (hrec : statusBits &&& recognizedMask = statusBits)
    (_hnn : (Status.mk statusBits).contains NAME_NOT_UNIQUE = true) :
    clientOpen serverNameOf 0 statusBits name opts =
      some ⟨Except.error ⟨statusBits⟩, 0⟩ := by
  rw [clientOpen,
    open_helper_recognized serverNameOf 0 statusBits name hrec]
  simp

/-- Witness for C6 at a null handle with status NAME_NOT_UNIQUE. -/
theorem clientOpen_null_name_not_unique_witness :
    clientOpen (fun _ => "srv.1") 0 4 "srv" 0 =
      some ⟨Except.error ⟨4⟩, 0⟩ :=
  clientOpen_null_name_not_unique (fun _ => "srv.1") 4 "srv" 0
    (by decide) (by decide)

/-- C7: both `connect_ports` and `disconnect_ports` return `Ok(())`
exactly when the server returns zero; on a nonzero server result
`connect_ports` returns Err carrying only the generic FAILURE flag
regardless of the integer, while `disconnect_ports` returns Err carrying
the server's bitmask (cast to u32) decoded into `Status` whenever it
decodes. -/
theorem connect_disconnect_asymmetry (res : Int) :
    (connect_ports res = Except.ok () ↔ res = 0) ∧
    (disconnect_ports res = some (Except.ok ()) ↔ res = 0) ∧
    (res ≠ 0 → connect_ports res = Except.error ⟨FAILURE⟩) ∧
    (res ≠ 0 → c_int_to_u32 res &&& recognizedMask = c_int_to_u32 res →
      disconnect_ports res = some (Except.error ⟨c_int_to_u32 res⟩)) := by
  refine ⟨?_, ?_, ?_, ?_⟩
  · by_cases h : res = 0 <;> simp [connect_ports, h]
  · by_cases h : res = 0
    · simp [disconnect_ports, h]
    · simp only [disconnect_ports, if_neg h]
      constructor
      · intro hc
        cases hfb : Status.from_bits (c_int_to_u32 res) <;>
          rw [hfb] at hc <;> simp at hc
      · intro h0
        exact absurd h0 h
  · intro h
    simp [connect_ports, h]
  · intro h hrecd
    simp [disconnect_ports, h, Status.from_bits, hrecd]

/-- Witness for C7 at a failing connect (res 3) and a failing
disconnect with a decodable bitmask (res 4). -/
theorem connect_disconnect_asymmetry_witness :
    connect_ports 3 = Except.error ⟨FAILURE⟩ ∧
    disconnect_ports 4 = some (Except.error ⟨c_int_to_u32 4⟩) :=
  ⟨(connect_disconnect_asymmetry 3).2.2.1 (by decide),
   (connect_disconnect_asymmetry 4).2.2.2 (by decide) (by decide)⟩

/-- C8: neither `open` nor `disconnect_ports` panics on a
server-reported failure whose status bitmask holds only recognized
flags: the panicking decode path (`none`) is taken exactly when the
bitmask holds an unrecognized bit, and under the recognized-bits
precondition a failing call returns a typed Err value. -/
theorem panic_only_on_unrecognized (serverNameOf : Nat → String)
    (handle statusBits : Nat) (name : String) (opts : Nat) (res : Int) :
    (clientOpen serverNameOf handle statusBits name opts = none ↔
      ¬ statusBits &&& recognizedMask = statusBits) ∧
    (disconnect_ports res = none ↔
      (res ≠ 0 ∧
        ¬ c_int_to_u32 res &&& recognizedMask = c_int_to_u32 res)) ∧
    (statusBits &&& recognizedMask = statusBits → handle = 0 →
      clientOpen serverNameOf handle statusBits name opts =
        some ⟨Except.error ⟨statusBits⟩, 0⟩) ∧
    (res ≠ 0 → c_int_to_u32 res &&& recognizedMask = c_int_to_u32 res →
      disconnect_ports res = some (Except.error ⟨c_int_to_u32 res⟩)) := by
  refine ⟨?_, ?_, ?_, ?_⟩
  · constructor
    · intro hnone hrec
      rw [clientOpen, open_helper_recognized serverNameOf handle statusBits
        name hrec] at hnone
      exact Option.noConfusion hnone
    · intro hrec
      rw [clientOpen]
      unfold open_helper Status.from_bits
      rw [if_neg hrec]
  · by_cases h : res = 0
    · simp [disconnect_ports, h]
    · simp only [disconnect_ports, if_neg h]
      by_cases hrec : c_int_to_u32 res &&& recognizedMask = c_int_to_u32 res
      · simp [Status.from_bits, hrec, h]
      · simp [Status.from_bits, hrec, h]
  · intro hrec h0
    subst h0
    rw [clientOpen,
      open_helper_recognized serverNameOf 0 statusBits name hrec]
    simp
  · intro h hrecd
    simp [disconnect_ports, h, Status.from_bits, hrecd]

/-- Witness for C8: a refused open with recognized bits returns a typed
Err, and a failing disconnect with recognized bits returns a typed Err. -/
theorem panic_only_on_unrecognized_witness :
    clientOpen (fun _ => "srv") 0 0x100 "nm" 0 =
      some ⟨Except.error ⟨0x100⟩, 0⟩ ∧
    disconnect_ports 8 = some (Except.error ⟨c_int_to_u32 8⟩) :=
  ⟨(panic_only_on_unrecognized (fun _ => "srv") 0 0x100 "nm" 0 8).2.2.1
      (by decide) rfl,
   (panic_only_on_unrecognized (fun _ => "srv") 0 0x100 "nm" 0 8).2.2.2
      (by decide) (by decide)⟩

/-- C9: every `set_process_handler` or `set_metadata_handler` call that
returns Err leaves the Client exactly as it was — in particular both
the `process_handler` and `metadata_handler` fields are unchanged — and
each call only ever updates its own field: `set_process_handler` never
touches `metadata_handler` and `set_metadata_handler` never touches
`process_handler`. -/
theorem handler_failure_frame (c : Client) (p q : Nat) (ret : Int)
    (cbs : List MetadataHandlers) (server : MetadataHandlers → Int) :
    (∀ s, (set_process_handler c p ret).result = Except.error s →
      (set_process_handler c p ret).client = c) ∧
    (∀ s, (set_metadata_handler c q cbs server).returned =
        some (Except.error s) →
      (set_metadata_handler c q cbs server).client = c) ∧
    (set_process_handler c p ret).client.metadata_handler =
      c.metadata_handler ∧
    (set_metadata_handler c q cbs server).client.process_handler =
      c.process_handler := by
  refine ⟨?_, ?_, ?_, ?_⟩
  · intro s hs
    by_cases h : ret = 0
    · simp [set_process_handler, h] at hs
    · simp [set_process_handler, h]
  · intro s hs
    cases hml : metaRegisterLoop server [] cbs with
    | panicked installed => simp [set_metadata_handler, hml]
    | finished r installed =>
      by_cases h : r = 0
      · simp only [set_metadata_handler, hml] at hs
        simp [h] at hs
      · simp [set_metadata_handler, hml, h]
  · by_cases h : ret = 0 <;> simp [set_process_handler, h]
  · cases hml : metaRegisterLoop server [] cbs with
    | panicked installed => simp [set_metadata_handler, hml]
    | finished r installed =>
      by_cases h : r = 0 <;> simp [set_metadata_handler, hml, h]

/-- Witness for C9: a refused process registration and a refused
metadata registration both leave a populated Client untouched. -/
theorem handler_failure_frame_witness :
    (set_process_handler ⟨1, some 3, some 4⟩ 5 1).client =
      ⟨1, some 3, some 4⟩ ∧
    (set_metadata_handler ⟨1, some 3, some 4⟩ 6
        [MetadataHandlers.Xrun] (fun _ => 2)).client =
      ⟨1, some 3, some 4⟩ :=
  ⟨(handler_failure_frame ⟨1, some 3, some 4⟩ 5 6 1
      [MetadataHandlers.Xrun] (fun _ => 2)).1 ⟨FAILURE⟩ rfl,
   (handler_failure_frame ⟨1, some 3, some 4⟩ 5 6 1
      [MetadataHandlers.Xrun] (fun _ => 2)).2.1 ⟨FAILURE⟩ rfl⟩

/-- C10: the port-connect trampoline delivers a server connect
indicator of 0 to `on_port_connect` as PortsDisconnected and every
nonzero indicator as PortsConnected, with both port identifiers passed
through to the handler unchanged. -/
theorem connect_callback_spec {σ : Type}
    (f : σ → Nat → Nat → PortConnectStatus → σ) (s : σ) (a b : Nat)
    (connect : Int) :
    (connect = 0 →
      connect_callback f s a b connect =
        f s a b PortConnectStatus.PortsDisconnected) ∧
    (connect ≠ 0 →
      connect_callback f s a b connect =
        f s a b PortConnectStatus.PortsConnected) := by
  constructor <;> intro h <;> simp [connect_callback, h]

/-- Witness for C10 with a recording handler: indicator 0 delivers
PortsDisconnected, indicator 7 delivers PortsConnected, ports (3, 4)
unchanged. -/
theorem connect_callback_spec_witness :
    connect_callback
        (fun (s : List (Nat × Nat × PortConnectStatus)) a b st =>
          (a, b, st) :: s) [] 3 4 0 =
      [(3, 4, PortConnectStatus.PortsDisconnected)] ∧
    connect_callback
        (fun (s : List (Nat × Nat × PortConnectStatus)) a b st =>
          (a, b, st) :: s) [] 3 4 7 =
      [(3, 4, PortConnectStatus.PortsConnected)] :=
  ⟨(connect_callback_spec _ [] 3 4 0).1 rfl,
   (connect_callback_spec _ [] 3 4 7).2 (by decide)⟩

end Easyjack
